import Mathlib

/-!
Verification of the project-tracker backend (`tracker` Django app).

The development shallowly embeds the code of `src/tracker/` into Lean:

* `models.py` — `Profile.role`, `MiniProject.assigned_to`, `TraineeProgress`
  with its `unique_together ("trainee", "project")` constraint become the
  structures `Account`, `MiniProject`, `TraineeProgress`; the progress table
  is a `List TraineeProgress` and the uniqueness constraint the predicate
  `UniquePairs`.
* `permissions.py` — `IsAssignedOrTrainerOrReadOnly.has_object_permission`
  becomes `has_object_permission`.
* `views.py` — `MiniProjectViewSet.get_queryset`, `my_progress` and
  `comment` become `get_queryset`, `my_progress` and `comment`; the ORM
  `get_or_create` becomes `get_or_create` over the list-modelled table.
* `serializers.py` — `MiniProjectSerializer.to_representation` becomes
  `to_representation`.

Django's `django.utils.dateparse.parse_datetime` is external library code;
it is modelled on two-digit fields faithfully to its regex, whose seconds
group is optional: both `YYYY-MM-DDTHH:MM:SS` and the shortened
`YYYY-MM-DDTHH:MM` form parse (the latter with seconds 0), so the view's
zero-seconds fallback is dead code. Microseconds, timezone suffixes and
one-digit fields are not modelled. The DRF serializer layer
(`TraineeProgressSerializer.is_valid` and the field application of
`serializer.save()`) is modelled by `serializer_is_valid` and
`applySerializerFields` over the serializer's declared writable fields, so
an invalid body is rejected with a 400 before the view's `completed_at`
block runs, as in the program.
-/

namespace Tracker

/-- Model of `Profile.ROLE_CHOICES` from `models.py`: trainee / trainer. -/
inductive Role where
  | trainee
  | trainer
deriving DecidableEq, Repr

/-- A Django `User` together with its one-to-one `Profile.role`. -/
structure Account where
  id : Nat
  role : Role
deriving DecidableEq, Repr

/-- Model of `MiniProject` restricted to the attributes the verified logic reads:
its primary key and the `assigned_to` many-to-many set (as user ids). -/
structure MiniProject where
  id : Nat
  assignedTo : List Nat
deriving DecidableEq, Repr

/-- A naive datetime value (no timezone), standing for Python `datetime`. -/
structure Datetime where
  year : Nat
  month : Nat
  day : Nat
  hour : Nat
  minute : Nat
  second : Nat
deriving DecidableEq, Repr

/-- Model of `TraineeProgress` from `models.py`: one row of the progress table. -/
structure TraineeProgress where
  trainee : Nat
  project : Nat
  status : String
  report : Option String
  deploymentLink : Option String
  githubLink : Option String
  completedAt : Option Datetime
  trainerComment : Option String
deriving DecidableEq, Repr

/-- The numeric value of a decimal digit character. -/
def digitVal (c : Char) : Nat :=
  c.toNat - 48

/-- Two-digit decimal value. -/
def digits2 (a b : Char) : Nat :=
  digitVal a * 10 + digitVal b

/-- Four-digit decimal value. -/
def digits4 (a b c d : Char) : Nat :=
  digits2 a b * 100 + digits2 c d

/-- Range validation performed by the Python `datetime` constructor that
`parse_datetime` feeds its captured groups into. -/
def checkedDatetime (y mo d h mi se : Nat) : Option Datetime :=
  if 1 ≤ mo ∧ mo ≤ 12 ∧ 1 ≤ d ∧ d ≤ 31 ∧ h ≤ 23 ∧ mi ≤ 59 ∧ se ≤ 59 then
    some { year := y, month := mo, day := d, hour := h, minute := mi, second := se }
  else
    none

/-- Models `django.utils.dateparse.parse_datetime` on two-digit date and
time fields. Django's regex makes the seconds group optional, so both the
full `YYYY-MM-DDTHH:MM:SS` form and the shortened `YYYY-MM-DDTHH:MM` form
parse, the latter with seconds 0 (the separator may be `T` or a space).
Microseconds, timezone suffixes and one-digit fields are not modelled. -/
def parse_datetime (s : String) : Option Datetime :=
  match s.data with
  | [y1, y2, y3, y4, c1, m1, m2, c2, d1, d2, c3, h1, h2, c4, n1, n2] =>
    if (c1 = '-' ∧ c2 = '-' ∧ (c3 = 'T' ∨ c3 = ' ') ∧ c4 = ':') ∧
        ([y1, y2, y3, y4, m1, m2, d1, d2, h1, h2, n1, n2].all Char.isDigit) = true then
      checkedDatetime (digits4 y1 y2 y3 y4) (digits2 m1 m2) (digits2 d1 d2)
        (digits2 h1 h2) (digits2 n1 n2) 0
    else
      none
  | [y1, y2, y3, y4, c1, m1, m2, c2, d1, d2, c3, h1, h2, c4, n1, n2, c5, s1, s2] =>
    if (c1 = '-' ∧ c2 = '-' ∧ (c3 = 'T' ∨ c3 = ' ') ∧ c4 = ':' ∧ c5 = ':') ∧
        ([y1, y2, y3, y4, m1, m2, d1, d2, h1, h2, n1, n2, s1, s2].all Char.isDigit) = true then
      checkedDatetime (digits4 y1 y2 y3 y4) (digits2 m1 m2) (digits2 d1 d2)
        (digits2 h1 h2) (digits2 n1 n2) (digits2 s1 s2)
    else
      none
  | _ => none

/-! ## Authorization policy (`permissions.py`) -/

/-- Model of `rest_framework.permissions.SAFE_METHODS`. -/
def SAFE_METHODS : List String := ["GET", "HEAD", "OPTIONS"]

/-- Model of `IsAssignedOrTrainerOrReadOnly.TRAINEE_ALLOWED_FIELDS`. -/
def TRAINEE_ALLOWED_FIELDS : List String :=
  ["status", "report", "deployment_link", "github_link", "completed_at"]

/-- Model of `IsAssignedOrTrainerOrReadOnly._IGNORED_KEYS`. -/
def IGNORED_KEYS : List String := ["csrfmiddlewaretoken"]

/-- The set of keys of `request.data` minus the ignored transport keys:
`keys = set(k for k in raw_keys if k not in self._IGNORED_KEYS)`.
The request body is a key/value association list; `dedup` models taking
the `set` of its keys. -/
def requestKeys (data : List (String × String)) : List String :=
  ((data.map Prod.fst).dedup).filter (fun k => decide (k ∉ IGNORED_KEYS))

/-- Model of `IsAssignedOrTrainerOrReadOnly.has_object_permission`.
`user = none` models an unauthenticated request; an authenticated user
always carries its one-to-one profile role (spec §3 invariant). -/
def has_object_permission (method : String) (user : Option Account)
    (data : List (String × String)) (action : Option String)
    (obj : MiniProject) : Bool :=
  if method ∈ SAFE_METHODS then
    true
  else
    match user with
    | none => false
    | some u =>
      if u.role = Role.trainer then
        true
      else if u.id ∈ obj.assignedTo then
        if action = some "my_progress" ∧ (method = "PATCH" ∨ method = "PUT") then
          let keys := requestKeys data
          if keys = [] then
            false
          else if keys.all (fun k => decide (k ∈ TRAINEE_ALLOWED_FIELDS)) then
            true
          else
            false
        else
          false
      else
        false

/-- C1: for an assigned trainee issuing PATCH/PUT to `my_progress`, object
permission is granted iff the non-transport field set of the body is
non-empty and contained in the trainee-writable allow-list. -/
theorem C1_trainee_field_scope (u : Account) (obj : MiniProject)
    (method : String) (data : List (String × String))
    (hrole : u.role = Role.trainee)
    (hassigned : u.id ∈ obj.assignedTo)
    (hmethod : method = "PATCH" ∨ method = "PUT") :
    has_object_permission method (some u) data (some "my_progress") obj = true ↔
      (requestKeys data ≠ [] ∧ ∀ k ∈ requestKeys data, k ∈ TRAINEE_ALLOWED_FIELDS) := by
  have hsafe : method ∉ SAFE_METHODS := by
    rcases hmethod with h | h <;> subst h <;> decide
  have hnot : ¬ u.role = Role.trainer := by
    rw [hrole]; intro h; cases h
  unfold has_object_permission
  rw [if_neg hsafe]
  dsimp only
  rw [if_neg hnot, if_pos hassigned, if_pos (And.intro rfl hmethod)]
  by_cases hk : requestKeys data = []
  · rw [if_pos hk]
    simp [hk]
  · rw [if_neg hk]
    by_cases hall : (requestKeys data).all (fun k => decide (k ∈ TRAINEE_ALLOWED_FIELDS)) = true
    · rw [if_pos hall]
      simp only [List.all_eq_true, decide_eq_true_eq] at hall
      simp only [true_iff]
      exact ⟨hk, hall⟩
    · rw [if_neg hall]
      simp only [List.all_eq_true, decide_eq_true_eq] at hall
      simp [hk, hall]

/-- Witness for C1 at a concrete assigned trainee and a concrete body. -/
theorem C1_trainee_field_scope_witness :
    (Account.mk 7 Role.trainee).role = Role.trainee ∧
    (7 ∈ (MiniProject.mk 1 [3, 7]).assignedTo) ∧
    (has_object_permission "PATCH" (some (Account.mk 7 Role.trainee))
        [("status", "complete"), ("csrfmiddlewaretoken", "tok")]
        (some "my_progress") (MiniProject.mk 1 [3, 7]) = true ↔
      (requestKeys [("status", "complete"), ("csrfmiddlewaretoken", "tok")] ≠ [] ∧
        ∀ k ∈ requestKeys [("status", "complete"), ("csrfmiddlewaretoken", "tok")],
          k ∈ TRAINEE_ALLOWED_FIELDS)) :=
  ⟨rfl, by decide,
    C1_trainee_field_scope (Account.mk 7 Role.trainee) (MiniProject.mk 1 [3, 7])
      "PATCH" [("status", "complete"), ("csrfmiddlewaretoken", "tok")]
      rfl (by decide) (Or.inl rfl)⟩

/-! ## The progress table and its operations (`models.py`, ORM calls in `views.py`) -/

/-- Lookup in the progress table by the `(trainee, project)` key: models the
ORM fetch underlying `TraineeProgress.objects.get_or_create(trainee=..., project=...)`. -/
def findEntry (store : List TraineeProgress) (t p : Nat) : Option TraineeProgress :=
  store.find? (fun e => e.trainee == t && e.project == p)

/-- A freshly created `TraineeProgress` row: model defaults from `models.py`
(`status` defaults to `"todo"`, every optional column NULL). -/
def defaultEntry (t p : Nat) : TraineeProgress :=
  { trainee := t, project := p, status := "todo", report := none,
    deploymentLink := none, githubLink := none, completedAt := none,
    trainerComment := none }

/-- Model of `TraineeProgress.objects.get_or_create(trainee=t, project=p)`: return the
existing row if present, otherwise append a default row. -/
def get_or_create (store : List TraineeProgress) (t p : Nat) :
    TraineeProgress × List TraineeProgress :=
  match findEntry store t p with
  | some e => (e, store)
  | none => (defaultEntry t p, store ++ [defaultEntry t p])

/-- Model of `entry.save()`: persist `e` by replacing the row with the same
`(trainee, project)` key. -/
def saveEntry (store : List TraineeProgress) (e : TraineeProgress) : List TraineeProgress :=
  store.map (fun x => if x.trainee == e.trainee && x.project == e.project then e else x)

/-- The `unique_together ("trainee", "project")` constraint of
`TraineeProgress.Meta`: no two rows share a `(trainee, project)` key. -/
def UniquePairs (store : List TraineeProgress) : Prop :=
  store.Pairwise (fun a b => ¬(a.trainee = b.trainee ∧ a.project = b.project))

/-! ## The `my_progress` action (`views.py`) and the serializer layer -/

/-- Model of `request.data.get(k)` on the body association list. -/
def getData (data : List (String × String)) (k : String) : Option String :=
  (data.find? (fun kv => kv.fst == k)).map Prod.snd

/-- Choices of `TraineeProgress.status` (`models.py`), enforced by the
serializer's generated ChoiceField. -/
def STATUS_CHOICES : List String := ["todo", "inprogress", "complete"]

/-- Parse a decimal primary-key value, as the serializer's generated
`PrimaryKeyRelatedField` does with a submitted trainee id. -/
def parseNat (s : String) : Option Nat :=
  if s.data ≠ [] ∧ s.data.all Char.isDigit then
    some (s.data.foldl (fun n c => n * 10 + digitVal c) 0)
  else
    none

/-- Simplified model of Django's URLValidator, used by the serializer's
URLField on `deployment_link` and `github_link`: an http or https scheme
followed by a non-empty remainder. The validator's full regex is
framework-internal; only its scheme-level accept/reject split is modelled. -/
def isValidUrl (s : String) : Bool :=
  (decide (s.data.take 7 = "http://".data) && decide (7 < s.data.length)) ||
  (decide (s.data.take 8 = "https://".data) && decide (8 < s.data.length))

/-- Model of `serializer.is_valid(raise_exception=True)` for
`TraineeProgressSerializer` (`serializers.py:24-35` with DRF ModelSerializer
field semantics): `trainee` is the only required field (every other field
has a default or is nullable) and the requirement is lifted on a partial
(PATCH) update; a submitted `trainee` must be a numeric primary key
resolving to an account; a submitted `status` must be one of the model's
choices; a submitted `completed_at` must parse as a datetime (DRF's
DateTimeField is backed by the same `parse_datetime`); a submitted link
must pass the URL validator. `report` (an uploaded file) and
`trainer_comment` (free text) are modelled as accepted, and unknown keys
are ignored, as DRF does. -/
def serializer_is_valid (accounts : List Account) (method : String)
    (data : List (String × String)) : Bool :=
  (decide (method = "PATCH") || (getData data "trainee").isSome) &&
  (match getData data "trainee" with
   | some v =>
     match parseNat v with
     | some n => (accounts.find? (fun a => a.id == n)).isSome
     | none => false
   | none => true) &&
  (match getData data "status" with
   | some v => decide (v ∈ STATUS_CHOICES)
   | none => true) &&
  (match getData data "completed_at" with
   | some v => (parse_datetime v).isSome
   | none => true) &&
  (match getData data "deployment_link" with
   | some v => isValidUrl v
   | none => true) &&
  (match getData data "github_link" with
   | some v => isValidUrl v
   | none => true)

/-- Apply a validated `trainee` primary key from the body if present
(writable serializer field). -/
def applyTrainee (e : TraineeProgress) (data : List (String × String)) : TraineeProgress :=
  match getData data "trainee" with
  | some v =>
    match parseNat v with
    | some n => { e with trainee := n }
    | none => e
  | none => e

/-- Apply the `status` field from the body if present. -/
def applyStatus (e : TraineeProgress) (data : List (String × String)) : TraineeProgress :=
  match getData data "status" with
  | some v => { e with status := v }
  | none => e

/-- Apply the `report` field from the body if present. -/
def applyReport (e : TraineeProgress) (data : List (String × String)) : TraineeProgress :=
  match getData data "report" with
  | some v => { e with report := some v }
  | none => e

/-- Apply the `deployment_link` field from the body if present. -/
def applyDeployment (e : TraineeProgress) (data : List (String × String)) : TraineeProgress :=
  match getData data "deployment_link" with
  | some v => { e with deploymentLink := some v }
  | none => e

/-- Apply the `github_link` field from the body if present. -/
def applyGithub (e : TraineeProgress) (data : List (String × String)) : TraineeProgress :=
  match getData data "github_link" with
  | some v => { e with githubLink := some v }
  | none => e

/-- Apply the `trainer_comment` field from the body if present (writable
serializer field). -/
def applyTrainerComment (e : TraineeProgress) (data : List (String × String)) : TraineeProgress :=
  match getData data "trainer_comment" with
  | some v => { e with trainerComment := some v }
  | none => e

/-- Apply a validated `completed_at` from the body if present: the
serializer stores its parsed datetime. -/
def applyCompleted (e : TraineeProgress) (data : List (String × String)) : TraineeProgress :=
  match getData data "completed_at" with
  | some v =>
    match parse_datetime v with
    | some d => { e with completedAt := some d }
    | none => e
  | none => e

/-- Model of `serializer.save()` in `my_progress`: apply every writable
serializer field present in the validated body to the entry, in field
declaration order. -/
def applySerializerFields (e : TraineeProgress) (data : List (String × String)) :
    TraineeProgress :=
  applyCompleted (applyTrainerComment (applyGithub (applyDeployment (applyReport
    (applyStatus (applyTrainee e data) data) data) data) data) data) data

/-- The two-attempt parse of a client-sent `completed_at` string in
`my_progress`: `parse_datetime(client_completed)`, and on failure the
`YYYY-MM-DDTHH:MM` normalization that appends `":00"` when the string has
exactly 16 characters. With the seconds-optional `parse_datetime` the first
attempt already accepts the 16-character form, so the fallback never fires. -/
def parseClientCompleted (s : String) : Option Datetime :=
  match parse_datetime s with
  | some d => some d
  | none => if s.length = 16 then parse_datetime (s ++ ":00") else none

/-- The `completed_at` block of `my_progress` (lines 153–172 of `views.py`):
if the client sent a truthy `completed_at`, store its parse when one of the
two attempts succeeds and otherwise leave the field; else auto-set the field
to `now` when the updated status is `"complete"` and the field is empty. -/
def resolveCompletedAt (clientCompleted : Option String) (updated : TraineeProgress)
    (now : Datetime) : TraineeProgress :=
  match clientCompleted with
  | some s =>
    if s ≠ "" then
      match parseClientCompleted s with
      | some d => { updated with completedAt := some d }
      | none => updated
    else if updated.status = "complete" ∧ updated.completedAt = none then
      { updated with completedAt := some now }
    else
      updated
  | none =>
    if updated.status = "complete" ∧ updated.completedAt = none then
      { updated with completedAt := some now }
    else
      updated

/-- Outcome of `my_progress` or `comment`: an HTTP error response or a
serialized progress entry. A serializer validation failure surfaces as
`badRequest` (DRF's 400 with a field-error payload, abbreviated here to a
fixed detail string); an unhandled database integrity violation surfaces
as `serverError` (a 500). -/
inductive ViewResult where
  | forbidden (detail : String)
  | badRequest (detail : String)
  | notFound (detail : String)
  | serverError (detail : String)
  | ok (entry : TraineeProgress)
deriving DecidableEq, Repr

/-- Model of `instance.save()` on the row fetched at key `(t0, p0)` when
the update may have changed the `trainee` foreign key: the row is updated
in place; if its new key collides with a different existing row, the
database's `unique_together` constraint raises (`none`), which the view
does not catch. -/
def saveEntryAt (store : List TraineeProgress) (t0 p0 : Nat) (e : TraineeProgress) :
    Option (List TraineeProgress) :=
  if e.trainee = t0 ∧ e.project = p0 then
    some (saveEntry store e)
  else if findEntry store e.trainee e.project = none then
    some (store.map (fun x => if x.trainee == t0 && x.project == p0 then e else x))
  else
    none

/-- Model of `MiniProjectViewSet.my_progress`: deny with 403 unless the user
is in the project's assigned set; get-or-create the user's entry; on
PATCH/PUT validate the body with the serializer (400 on failure, after the
entry may already have been lazily created), apply the writable fields, run
the `completed_at` block, and persist (an integrity violation from a changed
`trainee` key is an unhandled 500); on GET return the entry as fetched or
created. Returns the response and the new table. -/
def my_progress (store : List TraineeProgress) (accounts : List Account) (user : Account)
    (method : String) (data : List (String × String)) (project : MiniProject)
    (now : Datetime) : ViewResult × List TraineeProgress :=
  if user.id ∈ project.assignedTo then
    let pr := get_or_create store user.id project.id
    if method = "PATCH" ∨ method = "PUT" then
      if serializer_is_valid accounts method data then
        let updated := applySerializerFields pr.fst data
        let final := resolveCompletedAt (getData data "completed_at") updated now
        match saveEntryAt pr.snd user.id project.id final with
        | some store2 => (ViewResult.ok final, store2)
        | none => (ViewResult.serverError "IntegrityError", pr.snd)
      else
        (ViewResult.badRequest "Invalid input.", pr.snd)
    else
      (ViewResult.ok pr.fst, pr.snd)
  else
    (ViewResult.forbidden "Not assigned to this project.", store)

/-- C8: an actor outside the project's assigned set gets a 403 from
`my_progress` under every method, and the progress table is unchanged — in
particular no entry is created for the pair. -/
theorem C8_unassigned_forbidden (store : List TraineeProgress) (accounts : List Account)
    (user : Account) (method : String) (data : List (String × String))
    (project : MiniProject) (now : Datetime)
    (h : user.id ∉ project.assignedTo) :
    my_progress store accounts user method data project now =
      (ViewResult.forbidden "Not assigned to this project.", store) := by
  unfold my_progress
  rw [if_neg h]

/-- Witness for C8: trainee 5 is not assigned to project 1. -/
theorem C8_unassigned_forbidden_witness :
    (5 ∉ (MiniProject.mk 1 [3, 7]).assignedTo) ∧
    my_progress [] [] (Account.mk 5 Role.trainee) "PATCH" [("status", "complete")]
        (MiniProject.mk 1 [3, 7]) (Datetime.mk 2024 1 1 0 0 0) =
      (ViewResult.forbidden "Not assigned to this project.", []) :=
  ⟨by decide,
    C8_unassigned_forbidden [] [] (Account.mk 5 Role.trainee) "PATCH"
      [("status", "complete")] (MiniProject.mk 1 [3, 7])
      (Datetime.mk 2024 1 1 0 0 0) (by decide)⟩

/-- C10: the in-view assignment guard of `my_progress` is role-independent —
an unassigned trainer is also denied with 403 and no entry is created — while
the permission layer's `has_object_permission` allows that same trainer
unconditionally on any unsafe method. -/
theorem C10_trainer_not_assigned (store : List TraineeProgress) (accounts : List Account)
    (user : Account) (method : String) (data : List (String × String))
    (project : MiniProject) (now : Datetime)
    (hrole : user.role = Role.trainer)
    (h : user.id ∉ project.assignedTo) :
    my_progress store accounts user method data project now =
      (ViewResult.forbidden "Not assigned to this project.", store) ∧
    (method ∉ SAFE_METHODS →
      has_object_permission method (some user) data (some "my_progress") project = true) := by
  constructor
  · unfold my_progress
    rw [if_neg h]
  · intro hsafe
    unfold has_object_permission
    rw [if_neg hsafe]
    dsimp only
    rw [if_pos hrole]

/-- Witness for C10: trainer 9 is not assigned to project 1, yet the
permission layer allows its PATCH; the view still returns 403. -/
theorem C10_trainer_not_assigned_witness :
    (Account.mk 9 Role.trainer).role = Role.trainer ∧
    (9 ∉ (MiniProject.mk 1 [3, 7]).assignedTo) ∧
    (my_progress [] [] (Account.mk 9 Role.trainer) "PATCH" [("status", "complete")]
        (MiniProject.mk 1 [3, 7]) (Datetime.mk 2024 1 1 0 0 0) =
      (ViewResult.forbidden "Not assigned to this project.", []) ∧
    ("PATCH" ∉ SAFE_METHODS →
      has_object_permission "PATCH" (some (Account.mk 9 Role.trainer))
        [("status", "complete")] (some "my_progress") (MiniProject.mk 1 [3, 7]) = true)) :=
  ⟨rfl, by decide,
    C10_trainer_not_assigned [] [] (Account.mk 9 Role.trainer) "PATCH"
      [("status", "complete")] (MiniProject.mk 1 [3, 7])
      (Datetime.mk 2024 1 1 0 0 0) rfl (by decide)⟩

/-- Applying a `trainee` value never changes `project` or `completed_at`. -/
theorem applyTrainee_preserves (e : TraineeProgress) (data : List (String × String)) :
    (applyTrainee e data).project = e.project ∧
    (applyTrainee e data).completedAt = e.completedAt := by
  unfold applyTrainee
  cases getData data "trainee" with
  | none => exact ⟨rfl, rfl⟩
  | some v =>
    dsimp only
    cases parseNat v <;> exact ⟨rfl, rfl⟩

/-- When no `trainee` key is submitted, the `trainee` field is untouched. -/
theorem applyTrainee_trainee (e : TraineeProgress) (data : List (String × String))
    (h : getData data "trainee" = none) :
    (applyTrainee e data).trainee = e.trainee := by
  unfold applyTrainee
  rw [h]

/-- Applying `status` never changes the key or `completed_at`. -/
theorem applyStatus_preserves (e : TraineeProgress) (data : List (String × String)) :
    (applyStatus e data).trainee = e.trainee ∧
    (applyStatus e data).project = e.project ∧
    (applyStatus e data).completedAt = e.completedAt := by
  unfold applyStatus
  cases getData data "status" <;> exact ⟨rfl, rfl, rfl⟩

/-- Applying `report` never changes the key or `completed_at`. -/
theorem applyReport_preserves (e : TraineeProgress) (data : List (String × String)) :
    (applyReport e data).trainee = e.trainee ∧
    (applyReport e data).project = e.project ∧
    (applyReport e data).completedAt = e.completedAt := by
  unfold applyReport
  cases getData data "report" <;> exact ⟨rfl, rfl, rfl⟩

/-- Applying `deployment_link` never changes the key or `completed_at`. -/
theorem applyDeployment_preserves (e : TraineeProgress) (data : List (String × String)) :
    (applyDeployment e data).trainee = e.trainee ∧
    (applyDeployment e data).project = e.project ∧
    (applyDeployment e data).completedAt = e.completedAt := by
  unfold applyDeployment
  cases getData data "deployment_link" <;> exact ⟨rfl, rfl, rfl⟩

/-- Applying `github_link` never changes the key or `completed_at`. -/
theorem applyGithub_preserves (e : TraineeProgress) (data : List (String × String)) :
    (applyGithub e data).trainee = e.trainee ∧
    (applyGithub e data).project = e.project ∧
    (applyGithub e data).completedAt = e.completedAt := by
  unfold applyGithub
  cases getData data "github_link" <;> exact ⟨rfl, rfl, rfl⟩

/-- Applying `trainer_comment` never changes the key or `completed_at`. -/
theorem applyTrainerComment_preserves (e : TraineeProgress) (data : List (String × String)) :
    (applyTrainerComment e data).trainee = e.trainee ∧
    (applyTrainerComment e data).project = e.project ∧
    (applyTrainerComment e data).completedAt = e.completedAt := by
  unfold applyTrainerComment
  cases getData data "trainer_comment" <;> exact ⟨rfl, rfl, rfl⟩

/-- Applying `completed_at` never changes the key. -/
theorem applyCompleted_preserves (e : TraineeProgress) (data : List (String × String)) :
    (applyCompleted e data).trainee = e.trainee ∧
    (applyCompleted e data).project = e.project := by
  unfold applyCompleted
  cases getData data "completed_at" with
  | none => exact ⟨rfl, rfl⟩
  | some v =>
    dsimp only
    cases parse_datetime v <;> exact ⟨rfl, rfl⟩

/-- When no `completed_at` key is submitted, that field is untouched. -/
theorem applyCompleted_completedAt (e : TraineeProgress) (data : List (String × String))
    (h : getData data "completed_at" = none) :
    (applyCompleted e data).completedAt = e.completedAt := by
  unfold applyCompleted
  rw [h]

/-- The modelled `serializer.save()` does not touch `completed_at` when the
body has no `completed_at` key. -/
theorem applySerializerFields_completedAt (e : TraineeProgress)
    (data : List (String × String)) (h : getData data "completed_at" = none) :
    (applySerializerFields e data).completedAt = e.completedAt := by
  unfold applySerializerFields
  rw [applyCompleted_completedAt _ _ h, (applyTrainerComment_preserves _ _).2.2,
    (applyGithub_preserves _ _).2.2, (applyDeployment_preserves _ _).2.2,
    (applyReport_preserves _ _).2.2, (applyStatus_preserves _ _).2.2,
    (applyTrainee_preserves _ _).2]

/-- When no `trainee` key is submitted, applying the body fields never
changes the `(trainee, project)` key. -/
theorem applySerializerFields_key (e : TraineeProgress) (data : List (String × String))
    (h : getData data "trainee" = none) :
    (applySerializerFields e data).trainee = e.trainee ∧
    (applySerializerFields e data).project = e.project := by
  unfold applySerializerFields
  constructor
  · rw [(applyCompleted_preserves _ _).1, (applyTrainerComment_preserves _ _).1,
      (applyGithub_preserves _ _).1, (applyDeployment_preserves _ _).1,
      (applyReport_preserves _ _).1, (applyStatus_preserves _ _).1,
      applyTrainee_trainee _ _ h]
  · rw [(applyCompleted_preserves _ _).2, (applyTrainerComment_preserves _ _).2.1,
      (applyGithub_preserves _ _).2.1, (applyDeployment_preserves _ _).2.1,
      (applyReport_preserves _ _).2.1, (applyStatus_preserves _ _).2.1,
      (applyTrainee_preserves _ _).1]

/-- The `completed_at` block never changes the `(trainee, project)` key. -/
theorem resolveCompletedAt_key (cc : Option String) (upd : TraineeProgress) (now : Datetime) :
    (resolveCompletedAt cc upd now).trainee = upd.trainee ∧
    (resolveCompletedAt cc upd now).project = upd.project := by
  unfold resolveCompletedAt
  cases cc with
  | none =>
    dsimp only
    split <;> exact ⟨rfl, rfl⟩
  | some s =>
    dsimp only
    by_cases hs : s ≠ ""
    · rw [if_pos hs]
      cases parseClientCompleted s <;> exact ⟨rfl, rfl⟩
    · rw [if_neg hs]
      split <;> exact ⟨rfl, rfl⟩

/-- The entry returned by `get_or_create` carries the requested key. -/
theorem get_or_create_key (store : List TraineeProgress) (t p : Nat) :
    ((get_or_create store t p).fst).trainee = t ∧
    ((get_or_create store t p).fst).project = p := by
  unfold get_or_create
  cases h : findEntry store t p with
  | none => exact ⟨rfl, rfl⟩
  | some e =>
    dsimp only
    unfold findEntry at h
    have he := List.find?_some h
    simp only [Bool.and_eq_true, beq_iff_eq] at he
    exact he

/-- After `get_or_create`, the table contains the returned entry at its key. -/
theorem findEntry_get_or_create (store : List TraineeProgress) (t p : Nat) :
    findEntry (get_or_create store t p).snd t p = some (get_or_create store t p).fst := by
  unfold get_or_create
  cases h : findEntry store t p with
  | some e => exact h
  | none =>
    dsimp only
    unfold findEntry at h ⊢
    rw [List.find?_append, h, Option.none_or]
    rw [List.find?_cons_of_pos]
    simp [defaultEntry]

/-- Saving an entry whose key is already present replaces the stored row at
that key with the saved entry. -/
theorem findEntry_saveEntry (l : List TraineeProgress) (e' e0 : TraineeProgress)
    (t p : Nat) (ht : e'.trainee = t) (hp : e'.project = p)
    (h : findEntry l t p = some e0) :
    findEntry (saveEntry l e') t p = some e' := by
  induction l with
  | nil => simp [findEntry] at h
  | cons a l ih =>
    cases hpa : (a.trainee == t && a.project == p) with
    | true =>
      have hcond : (a.trainee == e'.trainee && a.project == e'.project) = true := by
        rw [ht, hp]; exact hpa
      have hpe : (e'.trainee == t && e'.project == p) = true := by
        simp [ht, hp]
      unfold saveEntry findEntry
      rw [List.map_cons, if_pos hcond, List.find?_cons]
      rw [hpe]
    | false =>
      have hcond : (a.trainee == e'.trainee && a.project == e'.project) = false := by
        rw [ht, hp]; exact hpa
      have htail : findEntry l t p = some e0 := by
        unfold findEntry at h
        rw [List.find?_cons] at h
        simp only [hpa] at h
        exact h
      have hrec := ih htail
      unfold saveEntry findEntry at hrec ⊢
      rw [List.map_cons]
      simp only [hcond, Bool.false_eq_true, if_false, List.find?_cons, hpa]
      exact hrec

/-- When a row with the key is already present, `get_or_create` returns it
and leaves the table untouched. -/
theorem get_or_create_of_found (store : List TraineeProgress) (t p : Nat)
    (e : TraineeProgress) (h : findEntry store t p = some e) :
    get_or_create store t p = (e, store) := by
  unfold get_or_create
  rw [h]

/-- The PATCH/PUT branch of `my_progress` on a valid body reduces to
applying the serializer fields, the `completed_at` block and the save. -/
theorem my_progress_valid_eq (store : List TraineeProgress) (accounts : List Account)
    (user : Account) (method : String) (data : List (String × String))
    (project : MiniProject) (now : Datetime)
    (hassigned : user.id ∈ project.assignedTo)
    (hmethod : method = "PATCH" ∨ method = "PUT")
    (hvalid : serializer_is_valid accounts method data = true) :
    my_progress store accounts user method data project now =
      (match saveEntryAt (get_or_create store user.id project.id).snd user.id project.id
          (resolveCompletedAt (getData data "completed_at")
            (applySerializerFields (get_or_create store user.id project.id).fst data) now) with
        | some store2 =>
          (ViewResult.ok (resolveCompletedAt (getData data "completed_at")
            (applySerializerFields (get_or_create store user.id project.id).fst data) now),
            store2)
        | none =>
          (ViewResult.serverError "IntegrityError",
            (get_or_create store user.id project.id).snd)) := by
  unfold my_progress
  rw [if_pos hassigned]
  dsimp only
  rw [if_pos hmethod, hvalid, if_pos (Eq.refl true)]

/-- C2: in the PATCH/PUT branch of `my_progress` on a serializer-valid body
carrying no `trainee` key, the request succeeds, and the completion
timestamp of the result becomes `now` exactly when no `completed_at` was
submitted, the updated status is `"complete"` and no timestamp was stored —
otherwise it keeps its prior value, so an existing value is never
overwritten; when a (validated) `completed_at` is submitted, the field is
its parse and the auto-set never fires. -/
theorem C2_completed_at_autoset (store : List TraineeProgress) (accounts : List Account)
    (user : Account) (method : String) (data : List (String × String))
    (project : MiniProject) (now : Datetime)
    (hassigned : user.id ∈ project.assignedTo)
    (hmethod : method = "PATCH" ∨ method = "PUT")
    (hvalid : serializer_is_valid accounts method data = true)
    (hnotrainee : getData data "trainee" = none) :
    ∃ r, (my_progress store accounts user method data project now).fst = ViewResult.ok r ∧
      (getData data "completed_at" = none →
        r.completedAt =
          if (applySerializerFields (get_or_create store user.id project.id).fst data).status = "complete" ∧
              ((get_or_create store user.id project.id).fst).completedAt = none then
            some now
          else
            ((get_or_create store user.id project.id).fst).completedAt) ∧
      (∀ s d, getData data "completed_at" = some s → parse_datetime s = some d →
        r.completedAt = some d) := by
  have heq := my_progress_valid_eq store accounts user method data project now
    hassigned hmethod hvalid
  have hkey := get_or_create_key store user.id project.id
  have hak := applySerializerFields_key (get_or_create store user.id project.id).fst
    data hnotrainee
  have hrk := resolveCompletedAt_key (getData data "completed_at")
    (applySerializerFields (get_or_create store user.id project.id).fst data) now
  have hft : (resolveCompletedAt (getData data "completed_at")
      (applySerializerFields (get_or_create store user.id project.id).fst data)
      now).trainee = user.id := by
    rw [hrk.1, hak.1, hkey.1]
  have hfp : (resolveCompletedAt (getData data "completed_at")
      (applySerializerFields (get_or_create store user.id project.id).fst data)
      now).project = project.id := by
    rw [hrk.2, hak.2, hkey.2]
  have hsave : saveEntryAt (get_or_create store user.id project.id).snd user.id project.id
      (resolveCompletedAt (getData data "completed_at")
        (applySerializerFields (get_or_create store user.id project.id).fst data) now) =
      some (saveEntry (get_or_create store user.id project.id).snd
        (resolveCompletedAt (getData data "completed_at")
          (applySerializerFields (get_or_create store user.id project.id).fst data) now)) := by
    unfold saveEntryAt
    rw [if_pos ⟨hft, hfp⟩]
  refine ⟨resolveCompletedAt (getData data "completed_at")
    (applySerializerFields (get_or_create store user.id project.id).fst data) now,
    ?_, ?_, ?_⟩
  · rw [heq, hsave]
  · intro hcc
    have hpres := applySerializerFields_completedAt
      (get_or_create store user.id project.id).fst data hcc
    rw [hcc]
    unfold resolveCompletedAt
    dsimp only
    rw [hpres]
    split <;> simp_all
  · intro s d hs hd
    have hsne : s ≠ "" := by
      intro h0
      rw [h0] at hd
      have hnil : parse_datetime "" = none := rfl
      rw [hnil] at hd
      cases hd
    have hpc : parseClientCompleted s = some d := by
      unfold parseClientCompleted
      rw [hd]
    rw [hs]
    unfold resolveCompletedAt
    dsimp only
    rw [if_pos hsne, hpc]

/-- Witness for C2: a fresh assigned trainee submits `{"status": "complete"}`
with no prior entry; the instantiated characterization holds, and concretely
the resulting entry has status `"complete"` and `completed_at = now`. -/
theorem C2_completed_at_autoset_witness :
    (3 ∈ (MiniProject.mk 1 [3]).assignedTo) ∧
    (serializer_is_valid [] "PATCH" [("status", "complete")] = true) ∧
    (getData [("status", "complete")] "trainee" = none) ∧
    (∃ r, (my_progress [] [] (Account.mk 3 Role.trainee) "PATCH" [("status", "complete")]
        (MiniProject.mk 1 [3]) (Datetime.mk 2024 1 1 12 0 0)).fst = ViewResult.ok r ∧
      (getData [("status", "complete")] "completed_at" = none →
        r.completedAt =
          if (applySerializerFields (get_or_create [] 3 1).fst [("status", "complete")]).status = "complete" ∧
              ((get_or_create [] 3 1).fst).completedAt = none then
            some (Datetime.mk 2024 1 1 12 0 0)
          else
            ((get_or_create [] 3 1).fst).completedAt) ∧
      (∀ s d, getData [("status", "complete")] "completed_at" = some s →
        parse_datetime s = some d → r.completedAt = some d)) ∧
    (my_progress [] [] (Account.mk 3 Role.trainee) "PATCH" [("status", "complete")]
        (MiniProject.mk 1 [3]) (Datetime.mk 2024 1 1 12 0 0)).fst =
      ViewResult.ok
        { trainee := 3, project := 1, status := "complete", report := none,
          deploymentLink := none, githubLink := none,
          completedAt := some (Datetime.mk 2024 1 1 12 0 0), trainerComment := none } :=
  ⟨by decide, by decide, rfl,
    C2_completed_at_autoset [] [] (Account.mk 3 Role.trainee) "PATCH"
      [("status", "complete")] (MiniProject.mk 1 [3]) (Datetime.mk 2024 1 1 12 0 0)
      (by decide) (Or.inl rfl) (by decide) rfl,
    by decide⟩

/-- A 16-character string accepted by `parse_datetime` parses with zero
seconds: the shortened form has no seconds group to capture. -/
theorem parse_datetime_16_second_zero (s : String) (d : Datetime)
    (hlen : s.data.length = 16) (hp : parse_datetime s = some d) :
    d.second = 0 := by
  unfold parse_datetime at hp
  split at hp
  · split at hp
    · unfold checkedDatetime at hp
      split at hp
      · injection hp with hp
        rw [← hp]
      · cases hp
    · cases hp
  · rename_i heq
    rw [heq] at hlen
    simp at hlen
  · cases hp

/-- Counterexample for C5 as stated: at the unparseable input
`"not-a-date"` the program surfaces a 400 validation error (DRF's
`is_valid(raise_exception=True)` rejects the writable `completed_at`
field), so the operation does not complete without surfacing an error. -/
theorem C5_silent_ignore_counterexample :
    (my_progress [defaultEntry 3 1] [] (Account.mk 3 Role.trainee) "PATCH"
        [("completed_at", "not-a-date")] (MiniProject.mk 1 [3])
        (Datetime.mk 2024 1 1 12 0 0)).fst =
      ViewResult.badRequest "Invalid input." ∧
    (my_progress [defaultEntry 3 1] [] (Account.mk 3 Role.trainee) "PATCH"
        [("completed_at", "not-a-date")] (MiniProject.mk 1 [3])
        (Datetime.mk 2024 1 1 12 0 0)).snd = [defaultEntry 3 1] := by
  decide

/-- C5 (amended): a PATCH/PUT to `my_progress` whose `completed_at` value
does not parse as a datetime is rejected by serializer validation with a
400 before the view's silent-ignore block is reached, and the stored
completion timestamp is left unchanged (the table is exactly the
get-or-create result; for a pre-existing row it is the original table). -/
theorem C5_unparseable_rejected (store : List TraineeProgress) (accounts : List Account)
    (user : Account) (method : String) (data : List (String × String))
    (project : MiniProject) (now : Datetime) (s : String)
    (hassigned : user.id ∈ project.assignedTo)
    (hmethod : method = "PATCH" ∨ method = "PUT")
    (hcc : getData data "completed_at" = some s)
    (hp : parse_datetime s = none) :
    my_progress store accounts user method data project now =
      (ViewResult.badRequest "Invalid input.",
        (get_or_create store user.id project.id).snd) ∧
    (∀ e0, findEntry store user.id project.id = some e0 →
      (my_progress store accounts user method data project now).snd = store) := by
  have hval : serializer_is_valid accounts method data = false := by
    unfold serializer_is_valid
    rw [hcc]
    dsimp only
    rw [hp]
    simp
  have heq : my_progress store accounts user method data project now =
      (ViewResult.badRequest "Invalid input.",
        (get_or_create store user.id project.id).snd) := by
    unfold my_progress
    rw [if_pos hassigned]
    dsimp only
    rw [if_pos hmethod, hval, if_neg Bool.false_ne_true]
  refine ⟨heq, ?_⟩
  intro e0 h0
  rw [heq]
  dsimp only
  rw [get_or_create_of_found store user.id project.id e0 h0]

/-- Witness for C5 (amended): `"not-a-date"` is rejected with a 400 and the
pre-existing row's table is unchanged. -/
theorem C5_unparseable_rejected_witness :
    (3 ∈ (MiniProject.mk 1 [3]).assignedTo) ∧
    (getData [("completed_at", "not-a-date")] "completed_at" = some "not-a-date") ∧
    (parse_datetime "not-a-date" = none) ∧
    (my_progress [defaultEntry 3 1] [] (Account.mk 3 Role.trainee) "PATCH"
        [("completed_at", "not-a-date")] (MiniProject.mk 1 [3])
        (Datetime.mk 2024 1 1 12 0 0) =
      (ViewResult.badRequest "Invalid input.",
        (get_or_create [defaultEntry 3 1] 3 1).snd) ∧
    (∀ e0, findEntry [defaultEntry 3 1] 3 1 = some e0 →
      (my_progress [defaultEntry 3 1] [] (Account.mk 3 Role.trainee) "PATCH"
        [("completed_at", "not-a-date")] (MiniProject.mk 1 [3])
        (Datetime.mk 2024 1 1 12 0 0)).snd = [defaultEntry 3 1])) :=
  ⟨by decide, rfl, by decide,
    C5_unparseable_rejected [defaultEntry 3 1] [] (Account.mk 3 Role.trainee)
      "PATCH" [("completed_at", "not-a-date")] (MiniProject.mk 1 [3])
      (Datetime.mk 2024 1 1 12 0 0) "not-a-date" (by decide) (Or.inl rfl) rfl
      (by decide)⟩

/-- Counterexample for C9 as stated: at the claim's own example input the
first, full-format parse already succeeds (Django's parser makes seconds
optional), so the value is not parsed "by appending a zero-seconds suffix" —
the fallback branch guarded by a failed first parse is never reached. -/
theorem C9_fallback_dead_counterexample :
    parse_datetime "2024-01-01T10:00" = some (Datetime.mk 2024 1 1 10 0 0) ∧
    parseClientCompleted "2024-01-01T10:00" = some (Datetime.mk 2024 1 1 10 0 0) := by
  decide

/-- C9 (amended): a serializer-valid PATCH/PUT whose `completed_at` is a
16-character shortened-form value accepted by the (seconds-optional) full
parse stores exactly that parse, whose seconds are zero, as the completion
timestamp — in the response and in the table row at the actor's key. -/
theorem C9_short_form_stored (store : List TraineeProgress) (accounts : List Account)
    (user : Account) (method : String) (data : List (String × String))
    (project : MiniProject) (now : Datetime) (s : String) (d : Datetime)
    (hassigned : user.id ∈ project.assignedTo)
    (hmethod : method = "PATCH" ∨ method = "PUT")
    (hvalid : serializer_is_valid accounts method data = true)
    (hnotrainee : getData data "trainee" = none)
    (hcc : getData data "completed_at" = some s)
    (hlen : s.data.length = 16)
    (hp : parse_datetime s = some d) :
    ∃ r, (my_progress store accounts user method data project now).fst = ViewResult.ok r ∧
      r.completedAt = some d ∧ d.second = 0 ∧
      findEntry (my_progress store accounts user method data project now).snd
        user.id project.id = some r := by
  have heq := my_progress_valid_eq store accounts user method data project now
    hassigned hmethod hvalid
  have hkey := get_or_create_key store user.id project.id
  have hak := applySerializerFields_key (get_or_create store user.id project.id).fst
    data hnotrainee
  have hrk := resolveCompletedAt_key (getData data "completed_at")
    (applySerializerFields (get_or_create store user.id project.id).fst data) now
  have hft : (resolveCompletedAt (getData data "completed_at")
      (applySerializerFields (get_or_create store user.id project.id).fst data)
      now).trainee = user.id := by
    rw [hrk.1, hak.1, hkey.1]
  have hfp : (resolveCompletedAt (getData data "completed_at")
      (applySerializerFields (get_or_create store user.id project.id).fst data)
      now).project = project.id := by
    rw [hrk.2, hak.2, hkey.2]
  have hsave : saveEntryAt (get_or_create store user.id project.id).snd user.id project.id
      (resolveCompletedAt (getData data "completed_at")
        (applySerializerFields (get_or_create store user.id project.id).fst data) now) =
      some (saveEntry (get_or_create store user.id project.id).snd
        (resolveCompletedAt (getData data "completed_at")
          (applySerializerFields (get_or_create store user.id project.id).fst data) now)) := by
    unfold saveEntryAt
    rw [if_pos ⟨hft, hfp⟩]
  have hsne : s ≠ "" := by
    intro h0
    rw [h0] at hp
    have hnil : parse_datetime "" = none := rfl
    rw [hnil] at hp
    cases hp
  have hpc : parseClientCompleted s = some d := by
    unfold parseClientCompleted
    rw [hp]
  refine ⟨resolveCompletedAt (getData data "completed_at")
    (applySerializerFields (get_or_create store user.id project.id).fst data) now,
    ?_, ?_, parse_datetime_16_second_zero s d hlen hp, ?_⟩
  · rw [heq, hsave]
  · rw [hcc]
    unfold resolveCompletedAt
    dsimp only
    rw [if_pos hsne, hpc]
  · rw [heq, hsave]
    dsimp only
    exact findEntry_saveEntry _ _ _ _ _ hft hfp
      (findEntry_get_or_create store user.id project.id)

/-- Witness for C9 (amended): the scenario input `"2024-01-01T10:00"` is
stored as `2024-01-01T10:00:00`. -/
theorem C9_short_form_stored_witness :
    (3 ∈ (MiniProject.mk 1 [3]).assignedTo) ∧
    (serializer_is_valid [] "PATCH"
      [("status", "complete"), ("completed_at", "2024-01-01T10:00")] = true) ∧
    (getData [("status", "complete"), ("completed_at", "2024-01-01T10:00")]
      "completed_at" = some "2024-01-01T10:00") ∧
    ("2024-01-01T10:00").data.length = 16 ∧
    (parse_datetime "2024-01-01T10:00" = some (Datetime.mk 2024 1 1 10 0 0)) ∧
    (∃ r, (my_progress [] [] (Account.mk 3 Role.trainee) "PATCH"
        [("status", "complete"), ("completed_at", "2024-01-01T10:00")]
        (MiniProject.mk 1 [3]) (Datetime.mk 2024 6 1 12 0 0)).fst = ViewResult.ok r ∧
      r.completedAt = some (Datetime.mk 2024 1 1 10 0 0) ∧
      (Datetime.mk 2024 1 1 10 0 0).second = 0 ∧
      findEntry (my_progress [] [] (Account.mk 3 Role.trainee) "PATCH"
        [("status", "complete"), ("completed_at", "2024-01-01T10:00")]
        (MiniProject.mk 1 [3]) (Datetime.mk 2024 6 1 12 0 0)).snd 3 1 = some r) :=
  ⟨by decide, by decide, rfl, rfl, by decide,
    C9_short_form_stored [] [] (Account.mk 3 Role.trainee) "PATCH"
      [("status", "complete"), ("completed_at", "2024-01-01T10:00")]
      (MiniProject.mk 1 [3]) (Datetime.mk 2024 6 1 12 0 0)
      "2024-01-01T10:00" (Datetime.mk 2024 1 1 10 0 0)
      (by decide) (Or.inl rfl) (by decide) (by decide) rfl rfl (by decide)⟩

/-! ## The trainer `comment` action (`views.py`) -/

/-- Python's `str.strip()`: drop leading and trailing whitespace. -/
def strip (s : String) : String :=
  ⟨((s.data.dropWhile Char.isWhitespace).reverse.dropWhile Char.isWhitespace).reverse⟩

/-- Model of `MiniProjectViewSet.comment`: the defensive trainer check, the
required-field validation (`if not trainee_id or not comment_text` after
`strip()`), resolution of the trainee id against the user table, the
assignment check, then get-or-create and overwrite of `trainer_comment`.
`traineeId = some 0` and `none` are both falsy, as in Python. -/
def comment (store : List TraineeProgress) (accounts : List Account) (user : Account)
    (project : MiniProject) (traineeId : Option Nat) (commentText : Option String) :
    ViewResult × List TraineeProgress :=
  if user.role = Role.trainer then
    let ct := strip (commentText.getD "")
    if traineeId.getD 0 = 0 ∨ ct = "" then
      (ViewResult.badRequest "Provide both trainee (id) and comment.", store)
    else
      match accounts.find? (fun a => a.id == traineeId.getD 0) with
      | none => (ViewResult.notFound "Trainee not found.", store)
      | some trainee =>
        if trainee.id ∈ project.assignedTo then
          let pr := get_or_create store trainee.id project.id
          let updated := { pr.fst with trainerComment := some ct }
          (ViewResult.ok updated, saveEntry pr.snd updated)
        else
          (ViewResult.badRequest "Trainee is not assigned to this project.", store)
  else
    (ViewResult.forbidden "Only trainers may post comments.", store)

/-! ## The uniqueness invariant -/

/-- The operation `get_or_create` preserves the `(trainee, project)` uniqueness invariant:
it only appends a row when no row with that key exists. -/
theorem UniquePairs_get_or_create (store : List TraineeProgress) (t p : Nat)
    (h : UniquePairs store) : UniquePairs (get_or_create store t p).snd := by
  unfold get_or_create
  cases hf : findEntry store t p with
  | some e => exact h
  | none =>
    dsimp only
    unfold UniquePairs at h ⊢
    rw [List.pairwise_append]
    refine ⟨h, List.pairwise_singleton _ _, ?_⟩
    intro a ha b hb
    simp only [List.mem_singleton] at hb
    subst hb
    unfold findEntry at hf
    rw [List.find?_eq_none] at hf
    have hne := hf a ha
    simp only [Bool.and_eq_true, beq_iff_eq] at hne
    intro hab
    exact hne ⟨hab.1, hab.2⟩

/-- The operation `saveEntry` replaces rows in place, never changing keys, so it preserves
the uniqueness invariant. -/
theorem UniquePairs_saveEntry (l : List TraineeProgress) (e' : TraineeProgress)
    (h : UniquePairs l) : UniquePairs (saveEntry l e') := by
  have hkey : ∀ x : TraineeProgress,
      ((if (x.trainee == e'.trainee && x.project == e'.project) = true then e' else x).trainee
          = x.trainee ∧
        (if (x.trainee == e'.trainee && x.project == e'.project) = true then e' else x).project
          = x.project) := by
    intro x
    by_cases hx : (x.trainee == e'.trainee && x.project == e'.project) = true
    · rw [if_pos hx]
      simp only [Bool.and_eq_true, beq_iff_eq] at hx
      exact ⟨hx.1.symm, hx.2.symm⟩
    · rw [if_neg hx]
      exact ⟨rfl, rfl⟩
  unfold UniquePairs at h ⊢
  unfold saveEntry
  rw [List.pairwise_map]
  refine h.imp ?_
  intro a b hab hcontra
  rw [(hkey a).1, (hkey b).1, (hkey a).2, (hkey b).2] at hcontra
  exact hab hcontra

/-- The integrity-guarded save preserves the uniqueness invariant whenever
it succeeds: a self-keyed update is a plain `saveEntry`, and a key-moving
update succeeds only when the new key is absent from the table. -/
theorem UniquePairs_saveEntryAt (store : List TraineeProgress) (t0 p0 : Nat)
    (e : TraineeProgress) (store2 : List TraineeProgress)
    (h : UniquePairs store) (hs : saveEntryAt store t0 p0 e = some store2) :
    UniquePairs store2 := by
  unfold saveEntryAt at hs
  by_cases hc1 : e.trainee = t0 ∧ e.project = p0
  · rw [if_pos hc1] at hs
    injection hs with hs
    subst hs
    exact UniquePairs_saveEntry store e h
  · rw [if_neg hc1] at hs
    by_cases hc2 : findEntry store e.trainee e.project = none
    · rw [if_pos hc2] at hs
      injection hs with hs
      subst hs
      unfold UniquePairs at h ⊢
      rw [List.pairwise_map]
      refine h.imp_of_mem ?_
      intro a b ha hb hab hcontra
      by_cases hat : (a.trainee == t0 && a.project == p0) = true <;>
        by_cases hbt : (b.trainee == t0 && b.project == p0) = true
      · simp only [Bool.and_eq_true, beq_iff_eq] at hat hbt
        exact hab ⟨hat.1.trans hbt.1.symm, hat.2.trans hbt.2.symm⟩
      · rw [if_pos hat, if_neg hbt] at hcontra
        unfold findEntry at hc2
        rw [List.find?_eq_none] at hc2
        have hb2 := hc2 b hb
        simp only [Bool.and_eq_true, beq_iff_eq, not_and] at hb2
        exact hb2 hcontra.1.symm hcontra.2.symm
      · rw [if_neg hat, if_pos hbt] at hcontra
        unfold findEntry at hc2
        rw [List.find?_eq_none] at hc2
        have ha2 := hc2 a ha
        simp only [Bool.and_eq_true, beq_iff_eq, not_and] at ha2
        exact ha2 hcontra.1 hcontra.2
      · rw [if_neg hat, if_neg hbt] at hcontra
        exact hab hcontra
    · rw [if_neg hc2] at hs
      cases hs

/-- The view `my_progress` preserves the uniqueness invariant in every branch. -/
theorem UniquePairs_my_progress (store : List TraineeProgress) (accounts : List Account)
    (user : Account) (method : String) (data : List (String × String))
    (project : MiniProject) (now : Datetime) (h : UniquePairs store) :
    UniquePairs (my_progress store accounts user method data project now).snd := by
  unfold my_progress
  by_cases ha : user.id ∈ project.assignedTo
  · rw [if_pos ha]
    dsimp only
    by_cases hm : method = "PATCH" ∨ method = "PUT"
    · rw [if_pos hm]
      by_cases hv : serializer_is_valid accounts method data = true
      · rw [hv, if_pos (Eq.refl true)]
        cases hs : saveEntryAt (get_or_create store user.id project.id).snd
            user.id project.id
            (resolveCompletedAt (getData data "completed_at")
              (applySerializerFields (get_or_create store user.id project.id).fst data)
              now) with
        | some store2 =>
          exact UniquePairs_saveEntryAt _ _ _ _ _
            (UniquePairs_get_or_create store _ _ h) hs
        | none =>
          exact UniquePairs_get_or_create store _ _ h
      · rw [if_neg hv]
        exact UniquePairs_get_or_create store _ _ h
    · rw [if_neg hm]
      exact UniquePairs_get_or_create store _ _ h
  · rw [if_neg ha]
    exact h

/-- The view `comment` preserves the uniqueness invariant in every branch. -/
theorem UniquePairs_comment (store : List TraineeProgress) (accounts : List Account)
    (user : Account) (project : MiniProject) (traineeId : Option Nat)
    (commentText : Option String) (h : UniquePairs store) :
    UniquePairs (comment store accounts user project traineeId commentText).snd := by
  unfold comment
  by_cases hr : user.role = Role.trainer
  · rw [if_pos hr]
    dsimp only
    by_cases hv : traineeId.getD 0 = 0 ∨ strip (commentText.getD "") = ""
    · rw [if_pos hv]
      exact h
    · rw [if_neg hv]
      cases accounts.find? (fun a => a.id == traineeId.getD 0) with
      | none => exact h
      | some trainee =>
        dsimp only
        by_cases hassigned : trainee.id ∈ project.assignedTo
        · rw [if_pos hassigned]
          exact UniquePairs_saveEntry _ _ (UniquePairs_get_or_create store _ _ h)
        · rw [if_neg hassigned]
          exact h
  · rw [if_neg hr]
    exact h

/-- C3: every operation of the system preserves the at-most-one-entry
invariant for each `(trainee, project)` pair, and a second access for the
same pair returns the already-existing entry with the table unchanged. -/
theorem C3_unique_pair_invariant (store : List TraineeProgress)
    (h : UniquePairs store) :
    (∀ t p, UniquePairs (get_or_create store t p).snd) ∧
    (∀ accounts user method data project now,
      UniquePairs (my_progress store accounts user method data project now).snd) ∧
    (∀ accounts user project traineeId commentText,
      UniquePairs (comment store accounts user project traineeId commentText).snd) ∧
    (∀ t p, get_or_create (get_or_create store t p).snd t p =
      ((get_or_create store t p).fst, (get_or_create store t p).snd)) :=
  ⟨fun t p => UniquePairs_get_or_create store t p h,
    fun accounts user method data project now =>
      UniquePairs_my_progress store accounts user method data project now h,
    fun accounts user project traineeId commentText =>
      UniquePairs_comment store accounts user project traineeId commentText h,
    fun t p => get_or_create_of_found _ t p _ (findEntry_get_or_create store t p)⟩

/-- Witness for C3 on a concrete one-row table. -/
theorem C3_unique_pair_invariant_witness :
    UniquePairs [defaultEntry 1 1] ∧
    UniquePairs (get_or_create [defaultEntry 1 1] 2 1).snd ∧
    get_or_create (get_or_create [defaultEntry 1 1] 2 1).snd 2 1 =
      ((get_or_create [defaultEntry 1 1] 2 1).fst,
        (get_or_create [defaultEntry 1 1] 2 1).snd) :=
  ⟨List.pairwise_singleton _ _,
    (C3_unique_pair_invariant [defaultEntry 1 1] (List.pairwise_singleton _ _)).1 2 1,
    (C3_unique_pair_invariant [defaultEntry 1 1]
      (List.pairwise_singleton _ _)).2.2.2 2 1⟩

/-- C7: for a trainer actor, the `comment` action (i) rejects a missing
trainee id or whitespace-only comment with the validation message naming
both required fields, leaving the table unchanged; (ii) rejects an
unresolvable trainee id with a not-found error; (iii) rejects a resolved
trainee outside the assigned set with a validation error; (iv) otherwise
stores the trimmed text as the single trainer comment of the
`(trainee, project)` entry, replacing any previous comment. -/
theorem C7_comment_validation (store : List TraineeProgress) (accounts : List Account)
    (user : Account) (project : MiniProject) (traineeId : Option Nat)
    (commentText : Option String)
    (hrole : user.role = Role.trainer) :
    ((traineeId.getD 0 = 0 ∨ strip (commentText.getD "") = "") →
      comment store accounts user project traineeId commentText =
        (ViewResult.badRequest "Provide both trainee (id) and comment.", store)) ∧
    (¬(traineeId.getD 0 = 0 ∨ strip (commentText.getD "") = "") →
      (accounts.find? (fun a => a.id == traineeId.getD 0) = none →
        comment store accounts user project traineeId commentText =
          (ViewResult.notFound "Trainee not found.", store)) ∧
      (∀ trainee, accounts.find? (fun a => a.id == traineeId.getD 0) = some trainee →
        (trainee.id ∉ project.assignedTo →
          comment store accounts user project traineeId commentText =
            (ViewResult.badRequest "Trainee is not assigned to this project.", store)) ∧
        (trainee.id ∈ project.assignedTo →
          ∃ r, (comment store accounts user project traineeId commentText).fst =
              ViewResult.ok r ∧
            r.trainerComment = some (strip (commentText.getD "")) ∧
            findEntry (comment store accounts user project traineeId commentText).snd
              trainee.id project.id = some r))) := by
  refine ⟨?_, ?_⟩
  · intro hv
    unfold comment
    rw [if_pos hrole]
    dsimp only
    rw [if_pos hv]
  · intro hv
    refine ⟨?_, ?_⟩
    · intro hf
      unfold comment
      rw [if_pos hrole]
      dsimp only
      rw [if_neg hv, hf]
    · intro trainee hf
      refine ⟨?_, ?_⟩
      · intro hna
        unfold comment
        rw [if_pos hrole]
        dsimp only
        rw [if_neg hv, hf]
        dsimp only
        rw [if_neg hna]
      · intro hass
        have hkey := get_or_create_key store trainee.id project.id
        have hbody : comment store accounts user project traineeId commentText =
            (ViewResult.ok { (get_or_create store trainee.id project.id).fst with
                trainerComment := some (strip (commentText.getD "")) },
              saveEntry (get_or_create store trainee.id project.id).snd
                { (get_or_create store trainee.id project.id).fst with
                    trainerComment := some (strip (commentText.getD "")) }) := by
          unfold comment
          rw [if_pos hrole]
          dsimp only
          rw [if_neg hv, hf]
          dsimp only
          rw [if_pos hass]
        refine ⟨_, by rw [hbody], rfl, ?_⟩
        rw [hbody]
        dsimp only
        refine findEntry_saveEntry _ _ _ _ _ ?_ ?_
          (findEntry_get_or_create store trainee.id project.id)
        · exact hkey.1
        · exact hkey.2

/-- Witness for C7: trainer 9, trainee 3 assigned to project 1; the four
branches at concrete inputs. -/
theorem C7_comment_validation_witness :
    (Account.mk 9 Role.trainer).role = Role.trainer ∧
    comment [] [Account.mk 3 Role.trainee, Account.mk 5 Role.trainee]
        (Account.mk 9 Role.trainer) (MiniProject.mk 1 [3]) (some 3) (some "   ") =
      (ViewResult.badRequest "Provide both trainee (id) and comment.", []) ∧
    comment [] [Account.mk 3 Role.trainee, Account.mk 5 Role.trainee]
        (Account.mk 9 Role.trainer) (MiniProject.mk 1 [3]) (some 4) (some "good") =
      (ViewResult.notFound "Trainee not found.", []) ∧
    comment [] [Account.mk 3 Role.trainee, Account.mk 5 Role.trainee]
        (Account.mk 9 Role.trainer) (MiniProject.mk 1 [3]) (some 5) (some "good") =
      (ViewResult.badRequest "Trainee is not assigned to this project.", []) ∧
    (∃ r, (comment [] [Account.mk 3 Role.trainee, Account.mk 5 Role.trainee]
        (Account.mk 9 Role.trainer) (MiniProject.mk 1 [3]) (some 3)
        (some "  well done  ")).fst = ViewResult.ok r ∧
      r.trainerComment = some (strip ((some "  well done  ").getD "")) ∧
      findEntry (comment [] [Account.mk 3 Role.trainee, Account.mk 5 Role.trainee]
        (Account.mk 9 Role.trainer) (MiniProject.mk 1 [3]) (some 3)
        (some "  well done  ")).snd 3 1 = some r) :=
  ⟨rfl,
    (C7_comment_validation [] [Account.mk 3 Role.trainee, Account.mk 5 Role.trainee]
      (Account.mk 9 Role.trainer) (MiniProject.mk 1 [3]) (some 3) (some "   ")
      rfl).1 (by decide),
    ((C7_comment_validation [] [Account.mk 3 Role.trainee, Account.mk 5 Role.trainee]
      (Account.mk 9 Role.trainer) (MiniProject.mk 1 [3]) (some 4) (some "good")
      rfl).2 (by decide)).1 (by decide),
    (((C7_comment_validation [] [Account.mk 3 Role.trainee, Account.mk 5 Role.trainee]
      (Account.mk 9 Role.trainer) (MiniProject.mk 1 [3]) (some 5) (some "good")
      rfl).2 (by decide)).2 (Account.mk 5 Role.trainee) (by decide)).1 (by decide),
    (((C7_comment_validation [] [Account.mk 3 Role.trainee, Account.mk 5 Role.trainee]
      (Account.mk 9 Role.trainer) (MiniProject.mk 1 [3]) (some 3) (some "  well done  ")
      rfl).2 (by decide)).2 (Account.mk 3 Role.trainee) (by decide)).2 (by decide)⟩

/-! ## Role-scoped listing (`MiniProjectViewSet.get_queryset`) -/

/-- Model of `is_trainer` as computed in `get_queryset`: the profile role compare. -/
def is_trainer (u : Account) : Bool :=
  decide (u.role = Role.trainer)

/-- The ORM join `qs.filter(progress_entries__...)`: each project is emitted
once per progress entry matching the predicate, duplicating projects with
several qualifying entries exactly as the SQL join does; `.distinct()` later
removes the duplicates. -/
def statusJoin (qs : List MiniProject) (entries : List TraineeProgress)
    (pred : TraineeProgress → MiniProject → Bool) : List MiniProject :=
  qs.flatMap (fun q => (entries.filter (fun e => pred e q)).map (fun _ => q))

/-- The role-scoped base query set of `get_queryset`: all projects for a
trainer, `filter(assigned_to=user)` for a trainee. -/
def baseQueryset (projects : List MiniProject) (u : Account) : List MiniProject :=
  if is_trainer u then projects
  else projects.filter (fun p => decide (u.id ∈ p.assignedTo))

/-- The `?status=` restriction of `get_queryset`: for a trainer, projects
with any matching entry; for a trainee, projects whose entry of that actor
matches. -/
def statusFiltered (qs : List MiniProject) (entries : List TraineeProgress)
    (u : Account) (st : String) : List MiniProject :=
  if is_trainer u then
    statusJoin qs entries (fun e p => e.project == p.id && e.status == st)
  else
    statusJoin qs entries
      (fun e p => e.project == p.id && e.status == st && e.trainee == u.id)

/-- Model of `MiniProjectViewSet.get_queryset`: empty for an unauthenticated user;
all projects for a trainer, only assigned projects for a trainee; a truthy
`?status=` query parameter restricts via the progress-entry join; the
result is `.distinct()`-ed. -/
def get_queryset (projects : List MiniProject) (entries : List TraineeProgress)
    (user : Option Account) (statusFilter : Option String) : List MiniProject :=
  match user with
  | none => []
  | some u =>
    match statusFilter with
    | some st =>
      if st ≠ "" then (statusFiltered (baseQueryset projects u) entries u st).dedup
      else (baseQueryset projects u).dedup
    | none => (baseQueryset projects u).dedup

/-- Membership in a deduplicated status join: the project is in the base
query set and some entry matches it. -/
theorem mem_statusJoin_dedup (qs : List MiniProject) (entries : List TraineeProgress)
    (pred : TraineeProgress → MiniProject → Bool) (p : MiniProject) :
    p ∈ (statusJoin qs entries pred).dedup ↔
      p ∈ qs ∧ ∃ e ∈ entries, pred e p = true := by
  unfold statusJoin
  rw [List.mem_dedup, List.mem_flatMap]
  constructor
  · rintro ⟨a, ha, hp⟩
    rw [List.mem_map] at hp
    rcases hp with ⟨e, he, hpe⟩
    rw [List.mem_filter] at he
    subst hpe
    exact ⟨ha, e, he.1, he.2⟩
  · rintro ⟨hq, e, he, hpred⟩
    exact ⟨p, hq, List.mem_map.mpr ⟨e, List.mem_filter.mpr ⟨he, hpred⟩, rfl⟩⟩

/-- C4: the listing is deduplicated for every actor; a trainer sees all
projects, restricted under a truthy status filter to projects having some
matching entry from any trainee; a trainee sees only projects they are
assigned to, restricted under a truthy status filter to projects where
their own entry matches. -/
theorem C4_role_scoped_listing (projects : List MiniProject)
    (entries : List TraineeProgress) (u : Account) :
    (∀ user statusFilter, (get_queryset projects entries user statusFilter).Nodup) ∧
    (u.role = Role.trainer →
      (∀ p, p ∈ get_queryset projects entries (some u) none ↔ p ∈ projects) ∧
      (∀ st, st ≠ "" → ∀ p, p ∈ get_queryset projects entries (some u) (some st) ↔
        p ∈ projects ∧ ∃ e ∈ entries, e.project = p.id ∧ e.status = st)) ∧
    (u.role = Role.trainee →
      (∀ p, p ∈ get_queryset projects entries (some u) none ↔
        p ∈ projects ∧ u.id ∈ p.assignedTo) ∧
      (∀ st, st ≠ "" → ∀ p, p ∈ get_queryset projects entries (some u) (some st) ↔
        p ∈ projects ∧ u.id ∈ p.assignedTo ∧
          ∃ e ∈ entries, e.project = p.id ∧ e.status = st ∧ e.trainee = u.id)) := by
  refine ⟨?_, ?_, ?_⟩
  · intro user statusFilter
    cases user with
    | none =>
      simp only [get_queryset]
      exact List.nodup_nil
    | some v =>
      cases statusFilter with
      | none =>
        simp only [get_queryset]
        exact List.nodup_dedup _
      | some st =>
        simp only [get_queryset]
        split
        · exact List.nodup_dedup _
        · exact List.nodup_dedup _
  · intro hrole
    have ht : is_trainer u = true := by
      unfold is_trainer
      rw [hrole]
      decide
    constructor
    · intro p
      simp only [get_queryset]
      unfold baseQueryset
      rw [ht, if_pos rfl]
      exact List.mem_dedup
    · intro st hst p
      simp only [get_queryset]
      rw [if_pos hst]
      unfold statusFiltered baseQueryset
      rw [ht, if_pos rfl, if_pos rfl]
      rw [mem_statusJoin_dedup]
      simp only [Bool.and_eq_true, beq_iff_eq]
  · intro hrole
    have ht : is_trainer u = false := by
      unfold is_trainer
      rw [hrole]
      decide
    constructor
    · intro p
      simp only [get_queryset]
      unfold baseQueryset
      rw [ht, if_neg Bool.false_ne_true]
      rw [List.mem_dedup, List.mem_filter, decide_eq_true_eq]
    · intro st hst p
      simp only [get_queryset]
      rw [if_pos hst]
      unfold statusFiltered baseQueryset
      rw [ht, if_neg Bool.false_ne_true, if_neg Bool.false_ne_true]
      rw [mem_statusJoin_dedup]
      simp only [List.mem_filter, decide_eq_true_eq, Bool.and_eq_true, beq_iff_eq]
      tauto

/-- Witness for C4: one project with two matching entries appears once for
the trainer; the trainee variant binds to the actor's own entry. -/
theorem C4_role_scoped_listing_witness :
    ((Account.mk 9 Role.trainer).role = Role.trainer →
      (∀ p, p ∈ get_queryset [MiniProject.mk 1 [3, 4]]
          [{ defaultEntry 3 1 with status := "inprogress" },
            { defaultEntry 4 1 with status := "inprogress" }]
          (some (Account.mk 9 Role.trainer)) none ↔
        p ∈ [MiniProject.mk 1 [3, 4]]) ∧
      (∀ st, st ≠ "" → ∀ p, p ∈ get_queryset [MiniProject.mk 1 [3, 4]]
          [{ defaultEntry 3 1 with status := "inprogress" },
            { defaultEntry 4 1 with status := "inprogress" }]
          (some (Account.mk 9 Role.trainer)) (some st) ↔
        p ∈ [MiniProject.mk 1 [3, 4]] ∧
          ∃ e ∈ [{ defaultEntry 3 1 with status := "inprogress" },
            { defaultEntry 4 1 with status := "inprogress" }],
            e.project = p.id ∧ e.status = st)) ∧
    (∀ user statusFilter, (get_queryset [MiniProject.mk 1 [3, 4]]
        [{ defaultEntry 3 1 with status := "inprogress" },
          { defaultEntry 4 1 with status := "inprogress" }] user statusFilter).Nodup) ∧
    get_queryset [MiniProject.mk 1 [3, 4]]
        [{ defaultEntry 3 1 with status := "inprogress" },
          { defaultEntry 4 1 with status := "inprogress" }]
        (some (Account.mk 9 Role.trainer)) (some "inprogress") =
      [MiniProject.mk 1 [3, 4]] :=
  ⟨(C4_role_scoped_listing [MiniProject.mk 1 [3, 4]]
      [{ defaultEntry 3 1 with status := "inprogress" },
        { defaultEntry 4 1 with status := "inprogress" }]
      (Account.mk 9 Role.trainer)).2.1,
    (C4_role_scoped_listing [MiniProject.mk 1 [3, 4]]
      [{ defaultEntry 3 1 with status := "inprogress" },
        { defaultEntry 4 1 with status := "inprogress" }]
      (Account.mk 9 Role.trainer)).1,
    by decide⟩

/-! ## Serialization redaction (`MiniProjectSerializer.to_representation`) -/

/-- Model of `MiniProjectSerializer.to_representation` restricted to the
`progress_entries` field: for a trainee actor the serialized entries of a
project are filtered to those whose `trainee` id equals the actor's id (the
ids are numeric in this model, so the defensive non-numeric-id fallback of
the source is never taken); any other authenticated role sees all entries. -/
def to_representation (entries : List TraineeProgress) (user : Option Account) :
    List TraineeProgress :=
  match user with
  | none => entries
  | some u =>
    if u.role = Role.trainee then
      entries.filter (fun pe => pe.trainee == u.id)
    else
      entries

/-- Filtering a list of entries with pairwise-distinct trainee ids by the id
of a member entry yields exactly that entry. -/
theorem filter_trainee_eq_singleton (l : List TraineeProgress) (t : Nat)
    (e : TraineeProgress)
    (hu : l.Pairwise (fun a b => a.trainee ≠ b.trainee))
    (he : e ∈ l) (ht : e.trainee = t) :
    l.filter (fun pe => pe.trainee == t) = [e] := by
  induction l with
  | nil => cases he
  | cons a l ih =>
    rw [List.pairwise_cons] at hu
    rcases List.mem_cons.mp he with rfl | hel
    · rw [List.filter_cons_of_pos (by simp [ht])]
      have hnil : l.filter (fun pe => pe.trainee == t) = [] := by
        rw [List.filter_eq_nil_iff]
        intro b hb
        simp only [beq_iff_eq]
        intro hbt
        exact (hu.1 b hb) (by rw [hbt, ht])
      rw [hnil]
    · rw [List.filter_cons_of_neg ?_]
      · exact ih hu.2 hel
      · simp only [beq_iff_eq]
        intro hat
        exact (hu.1 e hel) (by rw [hat, ht])

/-- C6: serializing a project's entries for a trainee who owns one of the
entries yields exactly that entry (selection by account-id equality), while
a trainer receives every entry unfiltered. -/
theorem C6_trainee_entry_redaction (entries : List TraineeProgress) (u : Account)
    (e : TraineeProgress)
    (hrole : u.role = Role.trainee)
    (hunique : entries.Pairwise (fun a b => a.trainee ≠ b.trainee))
    (he : e ∈ entries) (hid : e.trainee = u.id) :
    to_representation entries (some u) = [e] ∧
    (∀ (l : List TraineeProgress) (v : Account), v.role = Role.trainer →
      to_representation l (some v) = l) := by
  constructor
  · simp only [to_representation]
    rw [if_pos hrole]
    exact filter_trainee_eq_singleton entries u.id e hunique he hid
  · intro l v hv
    simp only [to_representation]
    rw [if_neg ?_]
    rw [hv]
    intro hcontra
    cases hcontra

/-- Witness for C6: project 1 has entries of trainees 3, 4 and 5; trainee 4
sees only its own entry and trainer 9 sees all three. -/
theorem C6_trainee_entry_redaction_witness :
    (Account.mk 4 Role.trainee).role = Role.trainee ∧
    ([defaultEntry 3 1, defaultEntry 4 1, defaultEntry 5 1].Pairwise
      (fun a b => a.trainee ≠ b.trainee)) ∧
    (defaultEntry 4 1 ∈ [defaultEntry 3 1, defaultEntry 4 1, defaultEntry 5 1]) ∧
    (to_representation [defaultEntry 3 1, defaultEntry 4 1, defaultEntry 5 1]
        (some (Account.mk 4 Role.trainee)) = [defaultEntry 4 1] ∧
      (∀ (l : List TraineeProgress) (v : Account), v.role = Role.trainer →
        to_representation l (some v) = l)) :=
  ⟨rfl, by decide, by decide,
    C6_trainee_entry_redaction [defaultEntry 3 1, defaultEntry 4 1, defaultEntry 5 1]
      (Account.mk 4 Role.trainee) (defaultEntry 4 1) rfl (by decide) (by decide) rfl⟩

end Tracker
